import Mathlib

/-!
Shallow embedding of the password-strength-checker core
(`password_strength_checker.py`): wordlist loading with its process-wide
cache, the strength-evaluation pipeline `check_password_strength` with its
result memoization, `suggest_improvements`, and `generate_random_password`.

External effects are made explicit parameters:
* the file system is a function `String -> ReadOutcome`;
* the zxcvbn scoring oracle is a function `String -> ZxcvbnResult`;
* the random source behind `random.choice` is a function `Nat -> Nat`;
* exceptions (`KeyError` from the score-to-label lookup, wordlist load
  errors) become `Option` / `Except` results;
* the two memoization caches become explicit association-list states.
-/

/-- The code points Python `str.strip()` removes (CPython's Unicode
whitespace: U+0009..U+000D, U+001C..U+001F, space, U+0085, U+00A0,
U+1680, U+2000..U+200A, U+2028, U+2029, U+202F, U+205F, U+3000). -/
def pyWhitespaceCodes : List Nat :=
  [0x9, 0xa, 0xb, 0xc, 0xd, 0x1c, 0x1d, 0x1e, 0x1f, 0x20, 0x85, 0xa0,
   0x1680, 0x2000, 0x2001, 0x2002, 0x2003, 0x2004, 0x2005, 0x2006, 0x2007,
   0x2008, 0x2009, 0x200a, 0x2028, 0x2029, 0x202f, 0x205f, 0x3000]

/-- Characters stripped by Python `str.strip()`. -/
def pyIsSpace (c : Char) : Bool :=
  pyWhitespaceCodes.contains c.toNat

/-- Strip leading and trailing whitespace from a character list,
as Python `str.strip()` does. -/
def pyStripList (l : List Char) : List Char :=
  ((l.dropWhile pyIsSpace).reverse.dropWhile pyIsSpace).reverse

/-- Python `line.strip()` on a string. -/
def pyStrip (s : String) : String := String.mk (pyStripList s.data)

/-- Split a character list on each non-overlapping occurrence of the
(nonempty) separator, scanning left to right; the fuel argument only
makes the recursion structural and never runs out when it starts at
`l.length + 1`. -/
def splitSepFuel (sep : List Char) : Nat → List Char → List Char → List (List Char)
  | 0, _, acc => [acc.reverse]
  | _ + 1, [], acc => [acc.reverse]
  | fuel + 1, c :: rest, acc =>
    if sep.isPrefixOf (c :: rest) && !sep.isEmpty then
      acc.reverse :: splitSepFuel sep fuel ((c :: rest).drop sep.length) []
    else
      splitSepFuel sep fuel rest (c :: acc)

/-- Python `s.split(sep)` for a nonempty separator string. -/
def pySplit (s sep : String) : List String :=
  (splitSepFuel sep.data (s.data.length + 1) s.data []).map String.mk

/-- The lines produced by iterating over a Python text file whose decoded
content is `content`: split on newline, where a trailing newline does not
start an extra empty line and an empty file yields no lines.  (Each line of
the Python iteration keeps its trailing newline, but the checker strips
every line, so the newline is dropped here once and for all.) -/
def pyFileLines (content : String) : List String :=
  let parts := pySplit content "\n"
  if parts.getLastD "" = "" then parts.dropLast else parts

/-- Outcome of attempting to read a path: readable content,
`FileNotFoundError`, or any other read failure with its cause message. -/
inductive ReadOutcome where
  | ok (content : String)
  | missing
  | failure (cause : String)
deriving DecidableEq

/-- The file system as seen through `open(path).read()`. -/
abbrev FileSystem := String → ReadOutcome

/-- Error kinds raised by `Wordlist.load_wordlist`: `notFound` models the
re-raised `FileNotFoundError`, `loadFailure` the wrapping `RuntimeError`. -/
inductive WordlistError where
  | notFound (message : String)
  | loadFailure (message : String)
deriving DecidableEq

/-- State of the process-wide `Wordlist._cache`, keyed by path string. -/
abbrev WordlistCache := List (String × List String)

/-- Lookup in the wordlist cache by path. -/
def wordlistCacheLookup (cache : WordlistCache) (path : String) :
    Option (List String) :=
  (cache.find? (fun e => e.1 == path)).map (fun e => e.2)

/-- Embedding of `Wordlist.load_wordlist`: return the cached sequence when
the path is cached; otherwise read the file, strip every line, store the
sequence in the cache and return it; on `FileNotFoundError` re-raise a
`notFound` error carrying the path, on any other failure a `loadFailure`
wrapping the cause.  Returns the result together with the updated cache. -/
def load_wordlist (fs : FileSystem) (cache : WordlistCache) (file_path : String) :
    Except WordlistError (List String) × WordlistCache :=
  match wordlistCacheLookup cache file_path with
  | some ws => (.ok ws, cache)
  | none =>
    match fs file_path with
    | .ok content =>
        let wordlist := (pyFileLines content).map pyStrip
        (.ok wordlist, (file_path, wordlist) :: cache)
    | .missing =>
        (.error (.notFound ("Error: File \x27" ++ file_path ++ "\x27 not found.")),
          cache)
    | .failure cause =>
        (.error (.loadFailure
            ("Error loading wordlist from \x27" ++ file_path ++ "\x27: " ++ cause)),
          cache)

/-- Embedding of `Wordlist.is_word_in_list`: exact, case-sensitive
membership in the loaded sequence. -/
def is_word_in_list (words : List String) (word : String) : Bool :=
  words.contains word

/-- Embedding of the `StrengthResult` value class. -/
structure StrengthResult where
  strength : String
  score : Int
  message : String
deriving DecidableEq, Repr

/-- Evaluator state after a successful `PasswordStrength.__init__`: each
wordlist is `none` exactly when its configured path was falsy and the
check is skipped. -/
structure PasswordStrength where
  weak_wordlist : Option (List String)
  banned_wordlist : Option (List String)
deriving DecidableEq

/-- `self.min_password_length`, fixed at 12. -/
def min_password_length : Nat := 12

/-- Embedding of `self.strength_mapping`: a five-entry table with keys
0..4 and no default branch; a key outside the table has no value
(Python raises `KeyError`). -/
def strength_mapping : Int → Option String := fun score =>
  if score = 0 then some "Very Weak"
  else if score = 1 then some "Weak"
  else if score = 2 then some "Moderate"
  else if score = 3 then some "Strong"
  else if score = 4 then some "Very Strong"
  else none

/-- Load one optional wordlist during construction, propagating errors. -/
def load_optional_wordlist (fs : FileSystem) (cache : WordlistCache)
    (path : Option String) :
    Except WordlistError (Option (List String)) × WordlistCache :=
  match path with
  | none => (.ok none, cache)
  | some p =>
    match load_wordlist fs cache p with
    | (.ok ws, cache1) => (.ok (some ws), cache1)
    | (.error e, cache1) => (.error e, cache1)

/-- Embedding of `PasswordStrength.__init__`: load the weak wordlist (when
a path is configured), then the banned wordlist; a load error propagates
uncaught and construction fails. -/
def PasswordStrength.construct (fs : FileSystem) (cache : WordlistCache)
    (weak_wordlist_path banned_wordlist_path : Option String) :
    Except WordlistError PasswordStrength × WordlistCache :=
  match load_optional_wordlist fs cache weak_wordlist_path with
  | (.error e, cache1) => (.error e, cache1)
  | (.ok w, cache1) =>
    match load_optional_wordlist fs cache1 banned_wordlist_path with
    | (.error e, cache2) => (.error e, cache2)
    | (.ok b, cache2) => (.ok ⟨w, b⟩, cache2)

/-- Return value of the external zxcvbn scoring oracle: the `"score"`
field and the `"feedback"]["suggestions"` field. -/
structure ZxcvbnResult where
  score : Int
  suggestions : List String
deriving DecidableEq

/-- The scoring oracle as a pluggable dependency. -/
abbrev ScoringOracle := String → ZxcvbnResult

/-- Embedding of `re.search(r'[A-Z]', password)` as a Boolean. -/
def hasUppercase (password : String) : Bool :=
  password.data.any fun c => decide ('A' ≤ c ∧ c ≤ 'Z')

/-- Embedding of `re.search(r'[a-z]', password)` as a Boolean. -/
def hasLowercase (password : String) : Bool :=
  password.data.any fun c => decide ('a' ≤ c ∧ c ≤ 'z')

/-- Code-point ranges of the Unicode decimal-digit category Nd, the set a
Python 3 str-pattern `\d` matches (CPython 3.11 Unicode data; each range
is a run of digits 0..9). -/
def unicodeDecimalDigitRanges : List (Nat × Nat) :=
  [(0x30, 0x39), (0x660, 0x669), (0x6F0, 0x6F9), (0x7C0, 0x7C9),
   (0x966, 0x96F), (0x9E6, 0x9EF), (0xA66, 0xA6F), (0xAE6, 0xAEF),
   (0xB66, 0xB6F), (0xBE6, 0xBEF), (0xC66, 0xC6F), (0xCE6, 0xCEF),
   (0xD66, 0xD6F), (0xDE6, 0xDEF), (0xE50, 0xE59), (0xED0, 0xED9),
   (0xF20, 0xF29), (0x1040, 0x1049), (0x1090, 0x1099), (0x17E0, 0x17E9),
   (0x1810, 0x1819), (0x1946, 0x194F), (0x19D0, 0x19D9), (0x1A80, 0x1A89),
   (0x1A90, 0x1A99), (0x1B50, 0x1B59), (0x1BB0, 0x1BB9), (0x1C40, 0x1C49),
   (0x1C50, 0x1C59), (0xA620, 0xA629), (0xA8D0, 0xA8D9), (0xA900, 0xA909),
   (0xA9D0, 0xA9D9), (0xA9F0, 0xA9F9), (0xAA50, 0xAA59), (0xABF0, 0xABF9),
   (0xFF10, 0xFF19), (0x104A0, 0x104A9), (0x10D30, 0x10D39),
   (0x11066, 0x1106F), (0x110F0, 0x110F9), (0x11136, 0x1113F),
   (0x111D0, 0x111D9), (0x112F0, 0x112F9), (0x11450, 0x11459),
   (0x114D0, 0x114D9), (0x11650, 0x11659), (0x116C0, 0x116C9),
   (0x11730, 0x11739), (0x118E0, 0x118E9), (0x11950, 0x11959),
   (0x11C50, 0x11C59), (0x11D50, 0x11D59), (0x11DA0, 0x11DA9),
   (0x16A60, 0x16A69), (0x16AC0, 0x16AC9), (0x16B50, 0x16B59),
   (0x1D7CE, 0x1D7FF), (0x1E140, 0x1E149), (0x1E2F0, 0x1E2F9),
   (0x1E950, 0x1E959), (0x1FBF0, 0x1FBF9)]

/-- Membership in the Unicode decimal-digit category Nd. -/
def isUnicodeDecimalDigit (c : Char) : Bool :=
  unicodeDecimalDigitRanges.any fun r => decide (r.1 ≤ c.toNat ∧ c.toNat ≤ r.2)

/-- Embedding of `re.search(r'\d', password)` as a Boolean: Python 3 str
patterns match any Unicode decimal digit. -/
def hasDigitChar (password : String) : Bool :=
  password.data.any isUnicodeDecimalDigit

/-- The fixed punctuation set of the complexity regex
`[!@#$%^&*(),.?":{}|<>]`. -/
def specialCharacterSet : String := "!@#$%^&*(),.?\":\x7b\x7d|<>"

/-- Embedding of `re.search(r'[!@#$%^&*(),.?":{}|<>]', password)`. -/
def hasSpecial (password : String) : Bool :=
  password.data.any fun c => specialCharacterSet.data.contains c

/-- Python `str.lower()`, character by character. -/
def pyLower (s : String) : String := String.mk (s.data.map Char.toLower)

/-- The `complexity_issues` list built in `check_password_strength`:
names of the missing character classes, appended in the source's fixed
order. -/
def complexity_issues (password : String) : List String :=
  (if hasUppercase password then [] else ["uppercase letter"])
    ++ (if hasLowercase password then [] else ["lowercase letter"])
    ++ (if hasDigitChar password then [] else ["number"])
    ++ (if hasSpecial password then [] else ["special character"])

/-- Python `', '.join(l)`. -/
def joinComma (l : List String) : String := String.intercalate ", " l

/-- The weak-list gate condition
`self.weak_wordlist and self.weak_wordlist.is_word_in_list(password)`. -/
def weak_gate (ps : PasswordStrength) (password : String) : Bool :=
  match ps.weak_wordlist with
  | some ws => is_word_in_list ws password
  | none => false

/-- The banned-list gate condition
`self.banned_wordlist and self.banned_wordlist.is_word_in_list(password)`. -/
def banned_gate (ps : PasswordStrength) (password : String) : Bool :=
  match ps.banned_wordlist with
  | some ws => is_word_in_list ws password
  | none => false

/-- The part of `check_password_strength` after the three gates: invoke
the oracle, look the score up in `strength_mapping` (`none` models the
`KeyError` on an out-of-range score), then the complexity override and
the final classification. -/
def oracle_stage (oracle : ScoringOracle) (password : String) :
    Option StrengthResult :=
  let password_strength := oracle password
  let score := password_strength.score
  match strength_mapping score with
  | none => none
  | some strength =>
    let issues := complexity_issues password
    if issues ≠ [] then
      some ⟨"Weak", score,
        "Password lacks complexity. Missing: " ++ joinComma issues ++ "."⟩
    else if 3 ≤ score then
      some ⟨strength, score,
        "Password meets all the requirements. Score: " ++ toString score ++ "/4"⟩
    else
      some ⟨strength, score,
        "Password is " ++ pyLower strength ++ ". Suggestions: "
          ++ joinComma password_strength.suggestions⟩

/-- Embedding of `PasswordStrength.check_password_strength` (the pure
pipeline, without the `lru_cache` wrapper): length gate, weak-list gate,
banned-list gate, then the oracle stage.  `none` models an uncaught
exception. -/
def check_password_strength (ps : PasswordStrength) (oracle : ScoringOracle)
    (password : String) : Option StrengthResult :=
  if password.length < min_password_length then
    some ⟨"Too short", 0, "Password should be at least 12 characters long."⟩
  else if weak_gate ps password then
    some ⟨"Weak", 0, "Password is commonly used and easily guessable."⟩
  else if banned_gate ps password then
    some ⟨"Banned", 0,
      "This password is not allowed, as it is commonly found in data leaks."⟩
  else
    oracle_stage oracle password

/-- State of the `@lru_cache(maxsize=1000)` on `check_password_strength`,
most recently used first. -/
abbrev ResultCache := List (String × StrengthResult)

/-- Lookup in the memoization cache by exact password string. -/
def resultCacheLookup (cache : ResultCache) (password : String) :
    Option StrengthResult :=
  (cache.find? (fun e => e.1 == password)).map (fun e => e.2)

/-- The `maxsize` bound of the lru cache. -/
def lru_max_size : Nat := 1000

/-- Embedding of the `lru_cache`-wrapped `check_password_strength`: a hit
returns the cached result and moves the entry to the most-recently-used
position; a miss runs the pipeline and, when it returns normally, stores
the result, evicting the least recently used entries beyond `maxsize`
(an exception, modelled by `none`, is not cached). -/
def check_password_strength_cached (ps : PasswordStrength)
    (oracle : ScoringOracle) (cache : ResultCache) (password : String) :
    Option StrengthResult × ResultCache :=
  match resultCacheLookup cache password with
  | some r => (some r, (password, r) :: cache.eraseP (fun e => e.1 == password))
  | none =>
    match check_password_strength ps oracle password with
    | none => (none, cache)
    | some r => (some r, ((password, r) :: cache).take lru_max_size)

/-- Python `string.ascii_lowercase`. -/
def ascii_lowercase : String := "abcdefghijklmnopqrstuvwxyz"

/-- Python `string.ascii_uppercase`. -/
def ascii_uppercase : String := "ABCDEFGHIJKLMNOPQRSTUVWXYZ"

/-- Python `string.ascii_letters`. -/
def ascii_letters : String := ascii_lowercase ++ ascii_uppercase

/-- Python `string.digits`. -/
def ascii_digits : String := "0123456789"

/-- Python `string.punctuation`. -/
def ascii_punctuation : String :=
  "!\"#$%&\x27()*+,-./:;<=>?@[\\]^_\x60\x7b|\x7d~"

/-- The `characters` alphabet of `generate_random_password`:
`string.ascii_letters + string.digits + string.punctuation`. -/
def generator_characters : String :=
  ascii_letters ++ ascii_digits ++ ascii_punctuation

/-- Embedding of `random.choice(characters)`: the random source supplies a
natural number, reduced modulo the alphabet size to an index. -/
def random_choice (alphabet : String) (r : Nat) : Char :=
  alphabet.data.getD (r % alphabet.data.length) ' '

/-- Embedding of `PasswordStrength.generate_random_password`: one
character per position, each drawn from `generator_characters` by the
random source. -/
def generate_random_password (rand : Nat → Nat) (length : Nat) : String :=
  String.mk ((List.range length).map fun i =>
    random_choice generator_characters (rand i))

/-- The structural suggestion list built in `suggest_improvements`, in the
source's fixed order: length, uppercase, lowercase, digit, punctuation. -/
def structural_suggestions (password : String) : List String :=
  (if password.length < min_password_length then
      ["Increase length to at least " ++ toString min_password_length
        ++ " characters"]
    else [])
    ++ (if hasUppercase password then [] else ["Add uppercase letters"])
    ++ (if hasLowercase password then [] else ["Add lowercase letters"])
    ++ (if hasDigitChar password then [] else ["Add numbers"])
    ++ (if hasSpecial password then [] else ["Add special characters"])

/-- The fallback of `suggest_improvements`:
`result.message.split("Suggestions: ")[-1].split(", ")`. -/
def extract_message_suggestions (message : String) : List String :=
  pySplit ((pySplit message "Suggestions: ").getLastD "") ", "

/-- Embedding of `PasswordStrength.suggest_improvements`: evaluate the
password, derive the structural suggestions, fall back to splitting the
evaluation message when none are missing, and format a header plus one
bullet line per suggestion.  `none` models the exception propagating out
of `check_password_strength`. -/
def suggest_improvements (ps : PasswordStrength) (oracle : ScoringOracle)
    (password : String) : Option String :=
  match check_password_strength ps oracle password with
  | none => none
  | some result =>
    let suggestions := structural_suggestions password
    let suggestions :=
      if suggestions = [] then extract_message_suggestions result.message
      else suggestions
    some ("Suggested improvements:\n\n"
      ++ String.intercalate "\n" (suggestions.map (fun s => "- " ++ s)))

/-- The four complexity requirements as (class name, missing test) pairs,
in the fixed order the spec states for the complexity message. -/
def missing_class_table : List (String × (String → Bool)) :=
  [("uppercase letter", fun p => !hasUppercase p),
   ("lowercase letter", fun p => !hasLowercase p),
   ("number", fun p => !hasDigitChar p),
   ("special character", fun p => !hasSpecial p)]

/-- The five structural requirements of `suggest_improvements` as
(suggestion, missing test) pairs, in the fixed order length, uppercase,
lowercase, digit, punctuation. -/
def requirement_table : List (String × (String → Bool)) :=
  [("Increase length to at least 12 characters",
      fun p => decide (p.length < min_password_length)),
   ("Add uppercase letters", fun p => !hasUppercase p),
   ("Add lowercase letters", fun p => !hasLowercase p),
   ("Add numbers", fun p => !hasDigitChar p),
   ("Add special characters", fun p => !hasSpecial p)]

theorem weak_gate_false_of (ps : PasswordStrength) (password : String)
    (h : ∀ ws, ps.weak_wordlist = some ws → is_word_in_list ws password = false) :
    weak_gate ps password = false := by
  unfold weak_gate
  cases hw : ps.weak_wordlist with
  | none => rfl
  | some ws => exact h ws hw

theorem banned_gate_false_of (ps : PasswordStrength) (password : String)
    (h : ∀ bs, ps.banned_wordlist = some bs → is_word_in_list bs password = false) :
    banned_gate ps password = false := by
  unfold banned_gate
  cases hb : ps.banned_wordlist with
  | none => rfl
  | some bs => exact h bs hb

-- Sanity checks of the embedding on the spec's concrete scenarios.
example :
    check_password_strength ⟨none, none⟩ (fun _ => ⟨4, []⟩) "abc" =
      some ⟨"Too short", 0, "Password should be at least 12 characters long."⟩ := by
  decide

example :
    check_password_strength ⟨some ["password123456"], none⟩ (fun _ => ⟨4, []⟩)
        "password123456" =
      some ⟨"Weak", 0, "Password is commonly used and easily guessable."⟩ := by
  decide

example :
    check_password_strength ⟨none, none⟩ (fun _ => ⟨3, []⟩) "Abcdefghijkl" =
      some ⟨"Weak", 3,
        "Password lacks complexity. Missing: number, special character."⟩ := by
  decide

example :
    check_password_strength ⟨none, none⟩ (fun _ => ⟨4, []⟩) "Tr0ub4dor&3xyz!" =
      some ⟨"Very Strong", 4,
        "Password meets all the requirements. Score: 4/4"⟩ := by
  decide

-- Unicode fidelity of the character primitives: `\d` matches the
-- Arabic-Indic digit U+0663, so "Abcdefg!hij٣" misses no class and
-- reaches the final classification; `str.strip()` removes U+00A0,
-- U+001C and U+0085.
example : hasDigitChar "٣" = true := by decide

example : hasDigitChar "Abcdefg" = false := by decide

example :
    check_password_strength ⟨none, none⟩ (fun _ => ⟨4, []⟩) "Abcdefg!hij٣" =
      some ⟨"Very Strong", 4,
        "Password meets all the requirements. Score: 4/4"⟩ := by
  decide

example : pyStrip "\u00a0\u001cabc\u0085" = "abc" := by decide

example : (load_wordlist (fun _ => .ok " abc\n") [] "wl").1 = .ok ["abc"] := rfl

/-- C1: for every password string of length less than 12,
`check_password_strength` returns strength "Too short", score 0 and the
fixed message, regardless of the password's content and of the configured
wordlists and oracle (so no later pipeline step affects the result). -/
theorem check_too_short (ps : PasswordStrength) (oracle : ScoringOracle)
    (password : String) (h : password.length < 12) :
    check_password_strength ps oracle password =
      some ⟨"Too short", 0, "Password should be at least 12 characters long."⟩ := by
  unfold check_password_strength
  rw [if_pos (by simpa [min_password_length] using h)]

/-- Witness for C1 at the concrete short password "abc", with both
wordlists containing it and a high-scoring oracle. -/
theorem check_too_short_witness :
    check_password_strength ⟨some ["abc"], some ["abc"]⟩ (fun _ => ⟨4, []⟩) "abc" =
      some ⟨"Too short", 0, "Password should be at least 12 characters long."⟩ :=
  check_too_short ⟨some ["abc"], some ["abc"]⟩ (fun _ => ⟨4, []⟩) "abc" (by decide)

/-- C2: for passwords of length at least 12, a configured weak wordlist
containing the password yields the fixed "Weak" result even when the
banned list also contains it (precedence); when no configured weak list
matches, a configured banned wordlist containing the password yields the
fixed "Banned" result; with both lists unconfigured the gates are skipped
and evaluation proceeds to the oracle stage. -/
theorem gate_precedence (ps : PasswordStrength) (oracle : ScoringOracle)
    (password : String) (hlen : 12 ≤ password.length) :
    ((∃ ws, ps.weak_wordlist = some ws ∧ is_word_in_list ws password = true) →
      check_password_strength ps oracle password =
        some ⟨"Weak", 0, "Password is commonly used and easily guessable."⟩)
    ∧ ((∀ ws, ps.weak_wordlist = some ws → is_word_in_list ws password = false) →
        (∃ bs, ps.banned_wordlist = some bs ∧ is_word_in_list bs password = true) →
        check_password_strength ps oracle password =
          some ⟨"Banned", 0,
            "This password is not allowed, as it is commonly found in data leaks."⟩)
    ∧ (ps.weak_wordlist = none → ps.banned_wordlist = none →
        check_password_strength ps oracle password = oracle_stage oracle password) := by
  have hlen' : ¬ password.length < min_password_length := by
    simp [min_password_length]; omega
  refine ⟨?_, ?_, ?_⟩
  · rintro ⟨ws, hws, hmem⟩
    have hgate : weak_gate ps password = true := by
      unfold weak_gate; rw [hws]; exact hmem
    unfold check_password_strength
    rw [if_neg hlen', if_pos hgate]
  · intro hnone
    rintro ⟨bs, hbs, hmem⟩
    have hw : weak_gate ps password = false := weak_gate_false_of ps password hnone
    have hgate : banned_gate ps password = true := by
      unfold banned_gate; rw [hbs]; exact hmem
    unfold check_password_strength
    rw [if_neg hlen', if_neg (by simp [hw]), if_pos hgate]
  · intro hw hb
    unfold check_password_strength
    rw [if_neg hlen', if_neg (by simp [weak_gate, hw]), if_neg (by simp [banned_gate, hb])]

/-- Witness for C2 at "abcdefghijkl" present in both configured lists:
the weak gate wins. -/
theorem gate_precedence_witness :
    check_password_strength ⟨some ["abcdefghijkl"], some ["abcdefghijkl"]⟩
        (fun _ => ⟨4, []⟩) "abcdefghijkl" =
      some ⟨"Weak", 0, "Password is commonly used and easily guessable."⟩ :=
  (gate_precedence ⟨some ["abcdefghijkl"], some ["abcdefghijkl"]⟩
      (fun _ => ⟨4, []⟩) "abcdefghijkl" (by decide)).1
    ⟨["abcdefghijkl"], rfl, by decide⟩

/-- C5: calling the memoized `check_password_strength` twice on the same
evaluator, oracle and exact password string returns identical results,
from any starting cache state. -/
theorem memoized_idempotent (ps : PasswordStrength) (oracle : ScoringOracle)
    (cache : ResultCache) (password : String) :
    (check_password_strength_cached ps oracle
        (check_password_strength_cached ps oracle cache password).2 password).1 =
      (check_password_strength_cached ps oracle cache password).1 := by
  cases hhit : resultCacheLookup cache password with
  | some r =>
    simp only [check_password_strength_cached, hhit]
    simp [resultCacheLookup, List.find?]
  | none =>
    cases hres : check_password_strength ps oracle password with
    | none =>
      simp only [check_password_strength_cached, hhit, hres]
    | some r =>
      simp only [check_password_strength_cached, hhit, hres]
      rw [show lru_max_size = 999 + 1 from rfl, List.take_succ_cons]
      simp [resultCacheLookup, List.find?]

/-- C9: `generate_random_password` returns exactly the requested number of
characters, each drawn from the fixed alphabet of ASCII letters, digits
and punctuation, whatever the random source produces. -/
theorem generate_length_and_alphabet (rand : Nat → Nat) (n : Nat) :
    (generate_random_password rand n).length = n
    ∧ ∀ c ∈ (generate_random_password rand n).data,
        c ∈ generator_characters.data := by
  constructor
  · simp [generate_random_password, String.length]
  · intro c hc
    simp only [generate_random_password, String.mk, List.mem_map,
      List.mem_range] at hc
    obtain ⟨i, _, hEq⟩ := hc
    subst hEq
    unfold random_choice
    have hlt : rand i % generator_characters.data.length
        < generator_characters.data.length :=
      Nat.mod_lt _ (by decide)
    rw [List.getD_eq_getElem _ _ hlt]
    exact List.getElem_mem hlt

/-- C3: for a password of length at least 12, absent from every configured
wordlist and missing at least one required character class, the result is
"Weak" whatever the oracle score (within the oracle's 0..4 contract), the
score field carries the oracle's numeric value, and the message lists
exactly the missing classes in the fixed order uppercase, lowercase,
number, special character. -/
theorem complexity_override (ps : PasswordStrength) (oracle : ScoringOracle)
    (password : String) (hlen : 12 ≤ password.length)
    (hweak : ∀ ws, ps.weak_wordlist = some ws → is_word_in_list ws password = false)
    (hbanned : ∀ bs, ps.banned_wordlist = some bs → is_word_in_list bs password = false)
    (hmiss : complexity_issues password ≠ [])
    (label : String)
    (hmap : strength_mapping (oracle password).score = some label) :
    check_password_strength ps oracle password =
      some ⟨"Weak", (oracle password).score,
        "Password lacks complexity. Missing: "
          ++ joinComma (complexity_issues password) ++ "."⟩
    ∧ complexity_issues password =
        (missing_class_table.filter (fun r => r.2 password)).map (fun r => r.1) := by
  constructor
  · unfold check_password_strength
    rw [if_neg (by simp [min_password_length]; omega),
      if_neg (by simp [weak_gate_false_of ps password hweak]),
      if_neg (by simp [banned_gate_false_of ps password hbanned])]
    unfold oracle_stage
    simp only [hmap]
    rw [if_pos hmiss]
  · cases hU : hasUppercase password <;> cases hL : hasLowercase password <;>
      cases hD : hasDigitChar password <;> cases hS : hasSpecial password <;>
      simp [complexity_issues, missing_class_table, hU, hL, hD, hS]

/-- Witness for C3 at "Abcdefghijkl" (no digit, no special character) with
an oracle score of 3. -/
theorem complexity_override_witness :
    check_password_strength ⟨none, none⟩ (fun _ => ⟨3, []⟩) "Abcdefghijkl" =
      some ⟨"Weak", 3,
        "Password lacks complexity. Missing: number, special character."⟩ :=
  ((complexity_override ⟨none, none⟩ (fun _ => ⟨3, []⟩) "Abcdefghijkl"
      (by decide) (by intro ws h; cases h) (by intro bs h; cases h)
      (by decide) "Strong" (by decide)).1).trans (by decide)

/-- C4 counterexample: with no wordlists, a 12-character password holding
all four classes and an oracle score of 0, the message lowercases the
label ("very weak"), so it is not the claimed "Password is {label}. ..."
with the mapping's label "Very Weak". -/
theorem final_label_counterexample :
    check_password_strength ⟨none, none⟩ (fun _ => ⟨0, ["s1"]⟩) "Abcdef1!ghij" =
      some ⟨"Very Weak", 0, "Password is very weak. Suggestions: s1"⟩
    ∧ "Password is very weak. Suggestions: s1"
        ≠ "Password is Very Weak. Suggestions: s1" :=
  ⟨by decide, by decide⟩

/-- C4 as amended: for a password of length at least 12, absent from every
configured wordlist and containing all four required character classes,
the result's label is the fixed mapping applied to the oracle score and
the score is the oracle's; when the score is at least 3 the message is the
fixed "meets all the requirements" text with the score, otherwise it is
"Password is {lowercased label}. Suggestions: {oracle suggestions joined
by comma-space}". -/
theorem final_classification (ps : PasswordStrength) (oracle : ScoringOracle)
    (password : String) (hlen : 12 ≤ password.length)
    (hweak : ∀ ws, ps.weak_wordlist = some ws → is_word_in_list ws password = false)
    (hbanned : ∀ bs, ps.banned_wordlist = some bs → is_word_in_list bs password = false)
    (hU : hasUppercase password = true) (hL : hasLowercase password = true)
    (hD : hasDigitChar password = true) (hS : hasSpecial password = true)
    (label : String)
    (hmap : strength_mapping (oracle password).score = some label) :
    check_password_strength ps oracle password =
      some ⟨label, (oracle password).score,
        if 3 ≤ (oracle password).score then
          "Password meets all the requirements. Score: "
            ++ toString (oracle password).score ++ "/4"
        else
          "Password is " ++ pyLower label ++ ". Suggestions: "
            ++ joinComma (oracle password).suggestions⟩ := by
  have hnone : complexity_issues password = [] := by
    simp [complexity_issues, hU, hL, hD, hS]
  unfold check_password_strength
  rw [if_neg (by simp [min_password_length]; omega),
    if_neg (by simp [weak_gate_false_of ps password hweak]),
    if_neg (by simp [banned_gate_false_of ps password hbanned])]
  unfold oracle_stage
  simp only [hmap]
  rw [if_neg (by simp [hnone])]
  by_cases h3 : 3 ≤ (oracle password).score
  · rw [if_pos h3, if_pos h3]
  · rw [if_neg h3, if_neg h3]

/-- Witness for C4 at "Abcdef1!ghij": an oracle score of 4 yields the
"meets all the requirements" message, an oracle score of 1 with two
suggestions yields the lowercased-label suggestion message. -/
theorem final_classification_witness :
    check_password_strength ⟨none, none⟩ (fun _ => ⟨4, []⟩) "Abcdef1!ghij" =
      some ⟨"Very Strong", 4, "Password meets all the requirements. Score: 4/4"⟩
    ∧ check_password_strength ⟨none, none⟩ (fun _ => ⟨1, ["s1", "s2"]⟩) "Abcdef1!ghij" =
        some ⟨"Weak", 1, "Password is weak. Suggestions: s1, s2"⟩ :=
  ⟨(final_classification ⟨none, none⟩ (fun _ => ⟨4, []⟩) "Abcdef1!ghij"
      (by decide) (by intro ws h; cases h) (by intro bs h; cases h)
      (by decide) (by decide) (by decide) (by decide) "Very Strong"
      (by decide)).trans (by decide),
   (final_classification ⟨none, none⟩ (fun _ => ⟨1, ["s1", "s2"]⟩) "Abcdef1!ghij"
      (by decide) (by intro ws h; cases h) (by intro bs h; cases h)
      (by decide) (by decide) (by decide) (by decide) "Weak"
      (by decide)).trans (by decide)⟩

/-- C10: past the three gates, the score-to-label lookup is a five-entry
table with keys 0..4 and no default: a score in range always has a label
and evaluation returns a result, while a score outside the range has no
lookup result and evaluation fails (returns no `StrengthResult`). -/
theorem score_lookup_partiality (ps : PasswordStrength) (oracle : ScoringOracle)
    (password : String) (hlen : 12 ≤ password.length)
    (hweak : ∀ ws, ps.weak_wordlist = some ws → is_word_in_list ws password = false)
    (hbanned : ∀ bs, ps.banned_wordlist = some bs → is_word_in_list bs password = false) :
    ((0 ≤ (oracle password).score ∧ (oracle password).score ≤ 4) →
      ∃ r, check_password_strength ps oracle password = some r)
    ∧ (((oracle password).score < 0 ∨ 4 < (oracle password).score) →
        check_password_strength ps oracle password = none)
    ∧ (∀ s : Int, (strength_mapping s).isSome = true ↔ 0 ≤ s ∧ s ≤ 4) := by
  have hmapiff : ∀ s : Int, (strength_mapping s).isSome = true ↔ 0 ≤ s ∧ s ≤ 4 := by
    intro s
    unfold strength_mapping
    by_cases h0 : s = 0 <;> by_cases h1 : s = 1 <;> by_cases h2 : s = 2 <;>
      by_cases h3 : s = 3 <;> by_cases h4 : s = 4 <;>
      simp [h0, h1, h2, h3, h4] <;> omega
  have hpath : check_password_strength ps oracle password =
      oracle_stage oracle password := by
    unfold check_password_strength
    rw [if_neg (by simp [min_password_length]; omega),
      if_neg (by simp [weak_gate_false_of ps password hweak]),
      if_neg (by simp [banned_gate_false_of ps password hbanned])]
  refine ⟨?_, ?_, hmapiff⟩
  · intro hrange
    have : (strength_mapping (oracle password).score).isSome = true :=
      (hmapiff _).mpr hrange
    obtain ⟨label, hmap⟩ := Option.isSome_iff_exists.mp this
    rw [hpath]
    unfold oracle_stage
    simp only [hmap]
    by_cases hmiss : complexity_issues password ≠ []
    · rw [if_pos hmiss]; exact ⟨_, rfl⟩
    · rw [if_neg hmiss]
      by_cases h3 : 3 ≤ (oracle password).score
      · rw [if_pos h3]; exact ⟨_, rfl⟩
      · rw [if_neg h3]; exact ⟨_, rfl⟩
  · intro hout
    have : ¬ (strength_mapping (oracle password).score).isSome = true := by
      rw [hmapiff]; omega
    have hmap : strength_mapping (oracle password).score = none := by
      cases hm : strength_mapping (oracle password).score with
      | none => rfl
      | some l => rw [hm] at this; simp at this
    rw [hpath]
    unfold oracle_stage
    simp [hmap]

/-- Witness for C10 at "Abcdef1!ghij": an oracle score of 5 makes
evaluation fail, an oracle score of 2 yields a result. -/
theorem score_lookup_partiality_witness :
    check_password_strength ⟨none, none⟩ (fun _ => ⟨5, []⟩) "Abcdef1!ghij" = none
    ∧ ∃ r, check_password_strength ⟨none, none⟩ (fun _ => ⟨2, []⟩) "Abcdef1!ghij" =
        some r :=
  ⟨(score_lookup_partiality ⟨none, none⟩ (fun _ => ⟨5, []⟩) "Abcdef1!ghij"
      (by decide) (by intro ws h; cases h) (by intro bs h; cases h)).2.1
      (by decide),
   (score_lookup_partiality ⟨none, none⟩ (fun _ => ⟨2, []⟩) "Abcdef1!ghij"
      (by decide) (by intro ws h; cases h) (by intro bs h; cases h)).1
      (by decide)⟩

/-- C6 counterexample: for "Abcdef1!ghij" (no structural requirement
missing) with an oracle scoring 4 and returning no suggestions, the
fallback bullets the whole "meets all the requirements" message rather
than the oracle's (empty) suggestion list. -/
theorem suggest_fallback_counterexample :
    structural_suggestions "Abcdef1!ghij" = []
    ∧ ((fun _ : String => ZxcvbnResult.mk 4 []) "Abcdef1!ghij").suggestions = []
    ∧ suggest_improvements ⟨none, none⟩ (fun _ => ⟨4, []⟩) "Abcdef1!ghij" =
        some "Suggested improvements:\n\n- Password meets all the requirements. Score: 4/4"
    ∧ suggest_improvements ⟨none, none⟩ (fun _ => ⟨4, []⟩) "Abcdef1!ghij" ≠
        some ("Suggested improvements:\n\n"
          ++ String.intercalate "\n"
            ((([] : List String)).map (fun s => "- " ++ s))) :=
  ⟨by decide, rfl, by decide, by decide⟩

/-- C6 as amended: `suggest_improvements` derives the structural
suggestions as exactly the missing requirements of the fixed ordered
table (length, uppercase, lowercase, digit, punctuation); when none are
missing it falls back to splitting the evaluation message after
"Suggestions: " on comma-space (which recovers the oracle's suggestions
only when the message embeds them); the returned text is the header
followed by one bullet line per suggestion. -/
theorem suggest_improvements_spec (ps : PasswordStrength) (oracle : ScoringOracle)
    (password : String) (result : StrengthResult)
    (hres : check_password_strength ps oracle password = some result) :
    structural_suggestions password =
      (requirement_table.filter (fun r => r.2 password)).map (fun r => r.1)
    ∧ suggest_improvements ps oracle password =
        some ("Suggested improvements:\n\n"
          ++ String.intercalate "\n"
            ((if structural_suggestions password = [] then
                extract_message_suggestions result.message
              else structural_suggestions password).map (fun s => "- " ++ s))) := by
  constructor
  · by_cases hl : password.length < min_password_length <;>
      cases hU : hasUppercase password <;> cases hL : hasLowercase password <;>
      cases hD : hasDigitChar password <;> cases hS : hasSpecial password <;>
      simp [structural_suggestions, requirement_table, hl, hU, hL, hD, hS] <;>
      decide
  · simp only [suggest_improvements, hres]

/-- Witness for C6 at "Abcdef1!ghij" with an oracle scoring 0 and
suggesting "s1" and "s2": the fallback recovers exactly the oracle's
suggestions from the message. -/
theorem suggest_improvements_spec_witness :
    suggest_improvements ⟨none, none⟩ (fun _ => ⟨0, ["s1", "s2"]⟩) "Abcdef1!ghij" =
      some "Suggested improvements:\n\n- s1\n- s2" :=
  ((suggest_improvements_spec ⟨none, none⟩ (fun _ => ⟨0, ["s1", "s2"]⟩)
      "Abcdef1!ghij" ⟨"Very Weak", 0, "Password is very weak. Suggestions: s1, s2"⟩
      (by decide)).2).trans (by decide)

/-- C7 counterexample: a wordlist file whose single line is "  abc"
(leading whitespace) is stored as "abc": the leading whitespace is not
preserved, contrary to the claim. -/
theorem load_strip_counterexample :
    (load_wordlist (fun _ => .ok "  abc\n") [] "wordlist.txt").1 = .ok ["abc"]
    ∧ ("abc" : String) ≠ "  abc" :=
  ⟨rfl, by decide⟩

theorem head?_dropWhile_false {α : Type} (p : α → Bool) (l : List α) (c : α)
    (h : (l.dropWhile p).head? = some c) : p c = false := by
  induction l with
  | nil => cases h
  | cons a as ih =>
    by_cases hp : p a = true
    · rw [List.dropWhile_cons_of_pos hp] at h
      exact ih h
    · rw [List.dropWhile_cons_of_neg hp] at h
      have hac : a = c := by simpa using h
      subst hac
      cases hpa : p a with
      | false => rfl
      | true => exact absurd hpa hp

/-- C7 as amended: `load_wordlist` splits the contents into lines and
strips leading and trailing whitespace from each line (each stripped line
is the original line minus a whitespace prefix and a whitespace suffix,
and itself starts and ends with non-whitespace); the first call for an
uncached path stores the resulting sequence in the cache keyed by the
path string, and every subsequent call with the same path returns that
cached sequence and cache unchanged, whatever the file system then
contains (no re-read). -/
theorem load_wordlist_spec :
    (∀ l : List Char, ∃ pre suf,
        l = pre ++ pyStripList l ++ suf
        ∧ pre.all pyIsSpace = true ∧ suf.all pyIsSpace = true
        ∧ (∀ c, (pyStripList l).head? = some c → pyIsSpace c = false)
        ∧ (∀ c, (pyStripList l).getLast? = some c → pyIsSpace c = false))
    ∧ (∀ (fs : FileSystem) (cache : WordlistCache) (path content : String),
        wordlistCacheLookup cache path = none → fs path = .ok content →
        load_wordlist fs cache path =
          (.ok ((pyFileLines content).map pyStrip),
            (path, (pyFileLines content).map pyStrip) :: cache))
    ∧ (∀ (fs fs2 : FileSystem) (cache : WordlistCache) (path content : String),
        wordlistCacheLookup cache path = none → fs path = .ok content →
        load_wordlist fs2 (load_wordlist fs cache path).2 path =
          (.ok ((pyFileLines content).map pyStrip),
            (load_wordlist fs cache path).2)) := by
  have hload : ∀ (fs : FileSystem) (cache : WordlistCache) (path content : String),
      wordlistCacheLookup cache path = none → fs path = .ok content →
      load_wordlist fs cache path =
        (.ok ((pyFileLines content).map pyStrip),
          (path, (pyFileLines content).map pyStrip) :: cache) := by
    intro fs cache path content hcache hfs
    simp only [load_wordlist, hcache, hfs]
  refine ⟨?_, hload, ?_⟩
  · intro l
    refine ⟨l.takeWhile pyIsSpace,
      ((l.dropWhile pyIsSpace).reverse.takeWhile pyIsSpace).reverse,
      ?_, ?_, ?_, ?_, ?_⟩
    · have key : l.dropWhile pyIsSpace
          = pyStripList l
            ++ ((l.dropWhile pyIsSpace).reverse.takeWhile pyIsSpace).reverse := by
        conv_lhs => rw [← List.reverse_reverse (l.dropWhile pyIsSpace)]
        conv_lhs =>
          rw [← List.takeWhile_append_dropWhile pyIsSpace
            (l.dropWhile pyIsSpace).reverse]
        rw [List.reverse_append]
        rfl
      conv_lhs => rw [← List.takeWhile_append_dropWhile pyIsSpace l, key]
      rw [List.append_assoc]
    · simp only [List.all_eq_true]
      intro x hx
      exact List.mem_takeWhile_imp hx
    · simp only [List.all_eq_true]
      intro x hx
      rw [List.mem_reverse] at hx
      exact List.mem_takeWhile_imp hx
    · intro c hc
      rw [show pyStripList l
          = ((l.dropWhile pyIsSpace).reverse.dropWhile pyIsSpace).reverse from rfl,
        List.head?_reverse] at hc
      have hne : (l.dropWhile pyIsSpace).reverse.dropWhile pyIsSpace ≠ [] := by
        intro h
        rw [h] at hc
        cases hc
      have hlast : ((l.dropWhile pyIsSpace).reverse).getLast? = some c := by
        conv_lhs =>
          rw [← List.takeWhile_append_dropWhile pyIsSpace
            (l.dropWhile pyIsSpace).reverse]
        rw [List.getLast?_append_of_ne_nil _ hne]
        exact hc
      rw [List.getLast?_reverse] at hlast
      exact head?_dropWhile_false pyIsSpace l c hlast
    · intro c hc
      rw [show pyStripList l
          = ((l.dropWhile pyIsSpace).reverse.dropWhile pyIsSpace).reverse from rfl,
        List.getLast?_reverse] at hc
      exact head?_dropWhile_false pyIsSpace (l.dropWhile pyIsSpace).reverse c hc
  · intro fs fs2 cache path content hcache hfs
    rw [hload fs cache path content hcache hfs]
    simp [load_wordlist, wordlistCacheLookup, List.find?]

/-- Witness for C7: loading "  abc \nz" stores the stripped entries under
the path, and a second call returns them even from a file system where
the path is now missing. -/
theorem load_wordlist_spec_witness :
    load_wordlist (fun _ => .ok "  abc \nz") [] "wl" =
      (.ok ["abc", "z"], [("wl", ["abc", "z"])])
    ∧ load_wordlist (fun _ => .missing) [("wl", ["abc", "z"])] "wl" =
        (.ok ["abc", "z"], [("wl", ["abc", "z"])]) :=
  ⟨(load_wordlist_spec.2.1 (fun _ => .ok "  abc \nz") [] "wl" "  abc \nz"
      rfl rfl).trans rfl,
   (load_wordlist_spec.2.2 (fun _ => .ok "  abc \nz") (fun _ => .missing)
      [] "wl" "  abc \nz" rfl rfl).trans rfl⟩

/-- C8: an uncached path the file system cannot resolve makes
`load_wordlist` fail with a `notFound` error carrying the path; any other
read failure makes it fail with a `loadFailure` wrapping the cause; in
both cases the cache is unchanged (no entry stored); the errors propagate
uncaught to `PasswordStrength.construct`, which therefore fails with the
same error and an unchanged cache. -/
theorem wordlist_errors :
    (∀ (fs : FileSystem) (cache : WordlistCache) (path : String),
        wordlistCacheLookup cache path = none → fs path = .missing →
        load_wordlist fs cache path =
          (.error (.notFound ("Error: File \x27" ++ path ++ "\x27 not found.")),
            cache))
    ∧ (∀ (fs : FileSystem) (cache : WordlistCache) (path cause : String),
        wordlistCacheLookup cache path = none → fs path = .failure cause →
        load_wordlist fs cache path =
          (.error (.loadFailure
              ("Error loading wordlist from \x27" ++ path ++ "\x27: " ++ cause)),
            cache))
    ∧ (∀ (fs : FileSystem) (cache : WordlistCache) (pathW : String)
        (pathB : Option String),
        wordlistCacheLookup cache pathW = none → fs pathW = .missing →
        PasswordStrength.construct fs cache (some pathW) pathB =
          (.error (.notFound ("Error: File \x27" ++ pathW ++ "\x27 not found.")),
            cache))
    ∧ (∀ (fs : FileSystem) (cache : WordlistCache) (pathB cause : String),
        wordlistCacheLookup cache pathB = none → fs pathB = .failure cause →
        PasswordStrength.construct fs cache none (some pathB) =
          (.error (.loadFailure
              ("Error loading wordlist from \x27" ++ pathB ++ "\x27: " ++ cause)),
            cache)) := by
  have hmiss : ∀ (fs : FileSystem) (cache : WordlistCache) (path : String),
      wordlistCacheLookup cache path = none → fs path = .missing →
      load_wordlist fs cache path =
        (.error (.notFound ("Error: File \x27" ++ path ++ "\x27 not found.")),
          cache) := by
    intro fs cache path hcache hfs
    simp only [load_wordlist, hcache, hfs]
  have hfail : ∀ (fs : FileSystem) (cache : WordlistCache) (path cause : String),
      wordlistCacheLookup cache path = none → fs path = .failure cause →
      load_wordlist fs cache path =
        (.error (.loadFailure
            ("Error loading wordlist from \x27" ++ path ++ "\x27: " ++ cause)),
          cache) := by
    intro fs cache path cause hcache hfs
    simp only [load_wordlist, hcache, hfs]
  refine ⟨hmiss, hfail, ?_, ?_⟩
  · intro fs cache pathW pathB hcache hfs
    simp only [PasswordStrength.construct, load_optional_wordlist,
      hmiss fs cache pathW hcache hfs]
  · intro fs cache pathB cause hcache hfs
    simp only [PasswordStrength.construct, load_optional_wordlist,
      hfail fs cache pathB cause hcache hfs]

/-- Witness for C8: with an empty cache, a missing "weak.txt" fails
construction with the `notFound` error, and an unreadable "banned.txt"
fails it with the `loadFailure` error; the cache stays empty. -/
theorem wordlist_errors_witness :
    PasswordStrength.construct (fun _ => .missing) [] (some "weak.txt") none =
      (.error (.notFound "Error: File \x27weak.txt\x27 not found."), [])
    ∧ PasswordStrength.construct (fun _ => .failure "disk error") []
        none (some "banned.txt") =
      (.error (.loadFailure
          "Error loading wordlist from \x27banned.txt\x27: disk error"), []) :=
  ⟨(wordlist_errors.2.2.1 (fun _ => .missing) [] "weak.txt" none rfl rfl).trans rfl,
   (wordlist_errors.2.2.2 (fun _ => .failure "disk error") [] "banned.txt"
      "disk error" rfl rfl).trans rfl⟩
